import Mathlib

/-!
Verification of the validation-server engine (`src/index.py`) against its
natural-language specification.

The development shallowly embeds the Python module: pure computations become
Lean functions, Python `raise`/`except` becomes `Except String`, Python floats
become exact rationals (`ℚ`), and the external capabilities the spec declares
out of scope (the SmartNoise private reader, the postgres driver, the secrets
vault, the HTTP client) become function-valued parameters collected in a
`Caps` structure.  Python dictionaries with insertion order are embedded as
association lists with first-occurrence update semantics.
-/

set_option autoImplicit false

/-- Budget allocation, embedding `get_epsilon_per_column` (index.py lines
96-104).  The probe of the private-execution capability
(`PrivateReader(..., epsilon_per_column = 1.0)` followed by
`len(private_reader.get_privacy_cost(query))`) is the external capability
`costLen`; Python raises `ZeroDivisionError` on `epsilon / 0`, embedded as the
`Except.error` branch.  No other check is performed by the source. -/
def get_epsilon_per_column (costLen : String → Nat) (query : String) (epsilon : ℚ) :
    Except String ℚ :=
  let multiplier := costLen query
  if multiplier = 0 then Except.error "division by zero"
  else Except.ok (epsilon / multiplier)

/-- Result row of the per-column aggregate query
`SELECT min(c), max(c), count(distinct(c)), count(c)` issued by
`generate_transformation_metadata` (index.py lines 211-221). -/
structure ColStats where
  smin : Option Int
  smax : Option Int
  nunique : Int
  count : Int
deriving DecidableEq, Repr

/-- One column's metadata dictionary as built by
`generate_transformation_metadata`: the `type` entry is a Python string, the
remaining keys are optional (absent = `none`). -/
structure ColumnMeta where
  typ : String
  lower : Option Int := none
  upper : Option Int := none
  cardinality : Option Int := none
  private_id : Option Bool := none
deriving DecidableEq, Repr

/-- A value stored in the per-table metadata dictionary `puf`: the source mixes
column dictionaries with the scalar entries `censor_dims` (a bool) and `rows`
(a count) in the same dictionary. -/
inductive Entry where
  | col (m : ColumnMeta)
  | flag (b : Bool)
  | num (n : Int)
deriving DecidableEq, Repr

/-- The metadata dictionary, embedded as an insertion-ordered association
list. -/
abbrev Dict := List (String × Entry)

/-- Python `d[k] = v`: update the (unique) existing binding in place, else
append. -/
def dictInsert : Dict → String → Entry → Dict
  | [], k, v => [(k, v)]
  | (k', v') :: rest, k, v =>
    if k' = k then (k, v) :: rest else (k', v') :: dictInsert rest k v

/-- Python `d.get(k)` / `d[k]` read. -/
def dlookup : Dict → String → Option Entry
  | [], _ => none
  | (k', v') :: rest, k => if k' = k then some v' else dlookup rest k

/-- One iteration of the first loop of `generate_transformation_metadata`
(index.py lines 195-207): map the native type to a canonical type, except that
the fallback branch reassigns the *key* to the literal `"string"` and leaves
`key_type` as the native type name. -/
def scanCol (d : Dict) (c : String × String) : Dict :=
  if c.2 = "smallint" ∨ c.2 = "integer" ∨ c.2 = "bigint" then
    dictInsert d c.1 (Entry.col { typ := "int" })
  else if c.2 = "decimal" ∨ c.2 = "numeric" ∨ c.2 = "real" ∨
      c.2 = "double precision" then
    dictInsert d c.1 (Entry.col { typ := "float" })
  else if c.2 = "boolean" then
    dictInsert d c.1 (Entry.col { typ := "boolean" })
  else
    dictInsert d "string" (Entry.col { typ := c.2 })

/-- One iteration of the second loop (index.py lines 210-225): record
`lower`/`upper`, and `cardinality` only when the distinct count is below the
cutoff of 100. -/
def statUpdate (stats : String → ColStats) (p : String × Entry) : String × Entry :=
  match p.2 with
  | Entry.col m =>
    (p.1, Entry.col { m with
      lower := (stats p.1).smin
      upper := (stats p.1).smax
      cardinality := if (stats p.1).nunique < 100 then some (stats p.1).nunique else none })
  | e => (p.1, e)

/-- The body of `generate_transformation_metadata` (index.py lines 176-246),
with the database introspection supplied as inputs: `cols` is the result of
the `information_schema.columns` query and `stats` answers the per-column
aggregate query.  Returns the inner per-table dictionary (the source wraps it
in a fixed `Database/puf/<table>` envelope that adds no content).  When the
column list is empty the Python local `count` is never assigned and
`puf["rows"] = count` raises `NameError`, embedded as `none`. -/
def generate_transformation_metadata (cols : List (String × String))
    (stats : String → ColStats) : Option Dict :=
  let puf := cols.foldl scanCol []
  match puf.getLast? with
  | none => none
  | some last =>
    let puf2 := puf.map (statUpdate stats)
    let count := (stats last.1).count
    let puf3 := dictInsert puf2 "recid" (Entry.col { typ := "int", private_id := some true })
    let puf4 := dictInsert puf3 "censor_dims" (Entry.flag false)
    some (dictInsert puf4 "rows" (Entry.num count))

/-- The inbound request (`event`), per the data model.  `researcher_id` is the
one key the spec marks optional (`string|absent`); `none` embeds the key being
absent from the event dictionary, which makes the source's unconditional
`event["researcher_id"]` read raise `KeyError`.  The remaining keys are
required by the request schema and embedded as plain fields; `epsilon` is the
already-converted `float(event["epsilon"])` value, embedded exactly as a
rational. -/
structure Event where
  analysis_query : String
  transformation_query : Option String
  command_id : String
  run_id : String
  researcher_id : Option String
  epsilon : ℚ
  confidential_query : Bool
  debug : Bool
deriving DecidableEq, Repr

/-- The `result` body of a payload: `{"ok": ..., "data": ...}` on success,
`{"ok": ..., "error": ...}` on failure (the source serialises it with
`json.dumps`; the embedding keeps it structured). -/
structure ResultBody where
  ok : Bool
  data : Option String := none
  error : Option String := none
deriving DecidableEq, Repr

/-- The `accuracy` part of a payload: the error path sends the empty
dictionary `{}`, the success path sends the serialised quantile table. -/
inductive Accuracy where
  | empty
  | table (s : String)
deriving DecidableEq, Repr

/-- The wire payload built by `parse_payload` / `parse_error`
(index.py lines 129-136 and 312-319). -/
structure Payload where
  command_id : String
  run_id : String
  researcher_id : String
  privacy_budget_used : ℚ
  result : ResultBody
  accuracy : Accuracy
deriving DecidableEq, Repr

/-- An HTTP response as seen by the handler (`status_code` / `reason`). -/
structure Resp where
  status_code : Nat
  reason : String
deriving DecidableEq, Repr

/-- Credentials returned by the secret store; only the API token is consumed
by the delivery path in a way the claims mention. -/
structure Credentials where
  token : String
deriving DecidableEq, Repr

/-- The metadata value threaded through the handler: the static baseline
snapshot loaded from object storage, or the dictionary regenerated by
`generate_transformation_metadata`. -/
inductive Meta where
  | baseline
  | refreshed (d : Dict)
deriving DecidableEq, Repr

/-- `parse_payload` (index.py lines 107-138).  The pandas reshaping of the
accuracy frame (dropna + quantiles) and the `to_json` serialisations are
external dataframe operations; the embedding receives their serialised output
as the strings `data` and `accuracy` and records the wrapping the source
performs: `result = {"ok": True, "data": data}` and the six payload fields. -/
def parse_payload (command_id run_id researcher_id : String) (epsilon : ℚ)
    (data accuracy : String) : Payload :=
  { command_id := command_id
    run_id := run_id
    researcher_id := researcher_id
    privacy_budget_used := epsilon
    result := { ok := true, data := some data, error := none }
    accuracy := Accuracy.table accuracy }

/-- `parse_error` (index.py lines 295-321): reads
`event["researcher_id"]` unconditionally — `KeyError` when the key is absent —
then builds the failure payload `{"ok": False, "error": str(e)}` with an empty
accuracy dictionary and the identifiers copied from the event. -/
def parse_error (event : Event) (e : String) : Except String Payload :=
  match event.researcher_id with
  | none => Except.error "researcher_id"
  | some researcher_id =>
    Except.ok
      { command_id := event.command_id
        run_id := event.run_id
        researcher_id := researcher_id
        privacy_budget_used := event.epsilon
        result := { ok := false, data := none, error := some e }
        accuracy := Accuracy.empty }

/-- The external capabilities consumed by the handler, per the spec's
out-of-scope list: the baseline metadata snapshot from object storage
(`load_metadata`), the secret store (`get_secret`), the reader construction
(`get_reader`), the privacy-cost probe and private execution (SmartNoise),
the transformation statement and schema-introspection queries (postgres), and
the HTTP client used for delivery.  Each fallible call returns
`Except String` with the error string standing for the stringified raised
exception. -/
structure Caps where
  loadMetadata : Except String Meta
  getSecret : Except String Credentials
  getReader : Credentials → Except String Unit
  costLen : Meta → String → Nat
  exec : Meta → String → ℚ → Except String (String × String)
  runTransformation : String → Except String Unit
  tableCols : String → Except String (List (String × String))
  colStats : String → ColStats
  http : String → String → Payload → Except String Resp

/-- `run_analysis_query` (index.py lines 248-274): read the event fields
(`researcher_id` unconditionally — `KeyError` when absent), allocate the
per-column epsilon via `get_epsilon_per_column`, execute through the private
reader, and format the success payload. -/
def run_analysis_query (caps : Caps) (meta : Meta) (event : Event) :
    Except String Payload :=
  match event.researcher_id with
  | none => Except.error "researcher_id"
  | some researcher_id =>
    match get_epsilon_per_column (caps.costLen meta) event.analysis_query event.epsilon with
    | Except.error e => Except.error e
    | Except.ok epsilon_per_column =>
      match caps.exec meta event.analysis_query epsilon_per_column with
      | Except.error e => Except.error e
      | Except.ok (data, accuracy) =>
        Except.ok (parse_payload event.command_id event.run_id researcher_id
          event.epsilon data accuracy)

/-- The metadata-refresh step of the handler (index.py lines 338-339): run the
`information_schema` lookup and rebuild the metadata with
`generate_transformation_metadata`; an empty column list leaves the Python
local `count` unassigned, raising `NameError`. -/
def refresh_metadata (caps : Caps) (q : String) : Except String Meta :=
  match caps.tableCols q with
  | Except.error e => Except.error e
  | Except.ok cols =>
    match generate_transformation_metadata cols caps.colStats with
    | none => Except.error "name count is not defined"
    | some d => Except.ok (Meta.refreshed d)

/-- `post_payload` (index.py lines 276-293): pick the endpoint from
`confidential_query`, authenticate with the token, and POST the payload; the
`event` argument is accepted and unused, as in the source. -/
def post_payload (http : String → String → Payload → Except String Resp)
    (event : Event) (payload : Payload) (credentials : Credentials)
    (confidential_query : Bool) : Except String Resp :=
  let url_stub := "https://validation-server-stg.urban.org/api/v1"
  let url := if confidential_query then url_stub ++ "/confidential-data-result/"
    else url_stub ++ "/synthetic-data-result/"
  http url credentials.token payload

/-- Observable pipeline steps, recorded in the order the handler attempts
them. -/
inductive Step where
  | transformation
  | metadataRefresh
  | execution
  | delivery
deriving DecidableEq, Repr

/-- The remainder of the handler's `try` block after setup succeeded
(index.py lines 331-341): optionally run the transformation (skipped for
confidential requests), optionally refresh the metadata, then run the
analysis query against `m0`, the metadata the setup loaded.  Returns the
Python `payload` binding or the raised exception, together with the steps
attempted. -/
def tryBlock (caps : Caps) (m0 : Meta) (event : Event) :
    Except String Payload × List Step :=
  match event.transformation_query with
  | none => (run_analysis_query caps m0 event, [Step.execution])
  | some q =>
    if event.confidential_query then
      match refresh_metadata caps q with
      | Except.error e => (Except.error e, [Step.metadataRefresh])
      | Except.ok m =>
        (run_analysis_query caps m event, [Step.metadataRefresh, Step.execution])
    else
      match caps.runTransformation q with
      | Except.error e => (Except.error e, [Step.transformation])
      | Except.ok _ =>
        match refresh_metadata caps q with
        | Except.error e => (Except.error e, [Step.transformation, Step.metadataRefresh])
        | Except.ok m =>
          (run_analysis_query caps m event,
            [Step.transformation, Step.metadataRefresh, Step.execution])

/-- How one invocation of the handler terminates: normal return, or an
exception propagating past it (the source has no `except` around its
`finally` block, so exceptions raised there escape). -/
inductive Outcome where
  | normal
  | exn (e : String)
deriving DecidableEq, Repr

/-- The observable result of one handler invocation: termination mode, the
final binding of the Python local `payload` (`none` = never assigned), and
the attempted steps in order. -/
structure HResult where
  outcome : Outcome
  payload : Option Payload
  trace : List Step
deriving DecidableEq, Repr

/-- The `except`/`finally` tail of the handler (index.py lines 342-350).  The
`except` clause replaces a raised exception with `parse_error`; if that itself
raises, `payload` stays unbound.  The `finally` clause attempts delivery
exactly when `debug` is false: with `payload` bound it calls `post_payload`
(whose own exception propagates uncaught), with `payload` unbound the
reference raises `UnboundLocalError`, replacing the pending exception. -/
def handlerRest (caps : Caps) (credentials : Credentials) (event : Event)
    (tryRes : Except String Payload) (tr : List Step) : HResult :=
  match (match tryRes with
         | Except.ok p => Except.ok p
         | Except.error e => parse_error event e) with
  | Except.ok p =>
    if event.debug then ⟨Outcome.normal, some p, tr⟩
    else
      match post_payload caps.http event p credentials event.confidential_query with
      | Except.ok _ => ⟨Outcome.normal, some p, tr ++ [Step.delivery]⟩
      | Except.error e => ⟨Outcome.exn e, some p, tr ++ [Step.delivery]⟩
  | Except.error e =>
    if event.debug then ⟨Outcome.exn e, none, tr⟩
    else ⟨Outcome.exn "local variable payload referenced before assignment", none, tr⟩

/-- The setup prefix of the handler's `try` block (index.py lines 328-330):
`load_metadata()`, `get_secret(...)`, `get_reader("puf", credentials)`, in
that order — all fallible, and all executed before line 333 binds the local
`debug` from the event. -/
def setup (caps : Caps) : Except String (Meta × Credentials) :=
  match caps.loadMetadata with
  | Except.error e => Except.error e
  | Except.ok metadata =>
    match caps.getSecret with
    | Except.error e => Except.error e
    | Except.ok credentials =>
      match caps.getReader credentials with
      | Except.error e => Except.error e
      | Except.ok _ => Except.ok (metadata, credentials)

/-- `handler` (index.py lines 323-350), composed from the setup prefix, the
rest of the `try` block, and the `except`/`finally` tail.  When a setup call
raises, the exception arrives before line 333 binds the local `debug`; the
`except` clause still runs `parse_error` (binding `payload` when the event
carries `researcher_id`), but the `finally` clause's `if not debug:` then
raises `UnboundLocalError` on the unbound local `debug`, so no step of the
pipeline and no delivery is ever attempted and the invocation ends by
exception.  When setup succeeds, the loaded metadata feeds the try block and
the retrieved credentials feed the delivery call. -/
def handler (caps : Caps) (event : Event) : HResult :=
  match setup caps with
  | Except.error e =>
    { outcome := Outcome.exn "local variable debug referenced before assignment"
      payload := match parse_error event e with
                 | Except.ok p => some p
                 | Except.error _ => none
      trace := [] }
  | Except.ok mc =>
    handlerRest caps mc.2 event (tryBlock caps mc.1 event).1 (tryBlock caps mc.1 event).2

/-- Rank of a step in the pipeline order the spec prescribes
(transformation, then metadata refresh, then execution, then delivery). -/
def stepRank : Step → Nat
  | Step.transformation => 0
  | Step.metadataRefresh => 1
  | Step.execution => 2
  | Step.delivery => 3

/-- The native types the first scan loop recognizes as numeric or boolean
(index.py lines 198-203). -/
abbrev recognizedType (t : String) : Prop :=
  t = "smallint" ∨ t = "integer" ∨ t = "bigint" ∨ t = "decimal" ∨ t = "numeric" ∨
    t = "real" ∨ t = "double precision" ∨ t = "boolean"

/-- Canonical type assigned by the scan loop to a recognized native type. -/
def canonType (t : String) : String :=
  if t = "smallint" ∨ t = "integer" ∨ t = "bigint" then "int"
  else if t = "decimal" ∨ t = "numeric" ∨ t = "real" ∨ t = "double precision" then "float"
  else if t = "boolean" then "boolean"
  else t

/-- A dictionary entry that does not carry `private_id = True`. -/
def entryNonPrivate : Entry → Prop
  | Entry.col m => m.private_id = none
  | Entry.flag _ => True
  | Entry.num _ => True

/-- A capability assignment under which every external call succeeds: the
probe reports two column-level privacy costs, queries return empty result
sets, and the API answers 200. -/
def okCaps : Caps :=
  { loadMetadata := Except.ok Meta.baseline
    getSecret := Except.ok ⟨"t0"⟩
    getReader := fun _ => Except.ok ()
    costLen := fun _ _ => 2
    exec := fun _ _ _ => Except.ok ("[]", "[]")
    runTransformation := fun _ => Except.ok ()
    tableCols := fun _ => Except.ok [("a", "integer")]
    colStats := fun _ => ⟨some 0, some 1, 2, 3⟩
    http := fun _ _ _ => Except.ok ⟨200, "OK"⟩ }

/-- A well-formed non-debug synthetic request with no transformation query. -/
def baseEvent : Event :=
  { analysis_query := "SELECT COUNT(*) FROM puf.puf_demo"
    transformation_query := none
    command_id := "c-17"
    run_id := "r-42"
    researcher_id := some "u-7"
    epsilon := 1
    confidential_query := false
    debug := false }

/-- The request of `baseEvent` with the `researcher_id` key absent. -/
def c3event : Event := { baseEvent with researcher_id := none }

/-- Capabilities whose private execution fails with a stringified exception. -/
def c4caps : Caps :=
  { okCaps with exec := fun _ _ _ => Except.error "Bad query: column unknown" }

/-- Capabilities whose transformation statement fails on the database. -/
def c5caps : Caps :=
  { okCaps with runTransformation := fun _ => Except.error "syntax error near DROP" }

/-- A debug request carrying a transformation query on the synthetic tier. -/
def c5event : Event :=
  { baseEvent with
      transformation_query := some "CREATE TABLE puf.puf_new AS SELECT 1"
      debug := true }

/-- Capabilities whose HTTP POST raises a connectivity error. -/
def c6caps : Caps :=
  { okCaps with http := fun _ _ _ => Except.error "ConnectionError" }

/-- Column scan of a five-row table whose designated identifier has fewer than
100 distinct values. -/
def c8cols : List (String × String) := [("recid", "integer"), ("age", "integer")]

/-- Aggregate statistics for `c8cols`: every column has 5 distinct values. -/
def c8stats : String → ColStats := fun _ => ⟨some 1, some 5, 5, 5⟩

/-- The metadata dictionary the profiler produces on `c8cols`/`c8stats`. -/
def c8dict : Dict :=
  [("recid", Entry.col ⟨"int", none, none, none, some true⟩),
   ("age", Entry.col ⟨"int", some 1, some 5, some 5, none⟩),
   ("censor_dims", Entry.flag false),
   ("rows", Entry.num 5)]

/-- Column scan with one column of unrecognized native type `text`. -/
def c9cols : List (String × String) := [("notes", "text")]

/-- Aggregate statistics for `c9cols`. -/
def c9stats : String → ColStats := fun _ => ⟨some 0, some 1, 3, 7⟩

/-- The metadata dictionary the profiler produces on `c9cols`/`c9stats`. -/
def c9dict : Dict :=
  [("string", Entry.col ⟨"text", some 0, some 1, some 3, none⟩),
   ("recid", Entry.col ⟨"int", none, none, none, some true⟩),
   ("censor_dims", Entry.flag false),
   ("rows", Entry.num 7)]

/-- A debug request with the `researcher_id` key absent. -/
def c10event : Event := { baseEvent with researcher_id := none, debug := true }

/-- Capabilities whose secret retrieval fails during setup, before the local
`debug` is ever bound. -/
def failSecretCaps : Caps := { okCaps with getSecret := Except.error "SecretRetrievalError" }

theorem dlookup_dictInsert (d : Dict) (k k' : String) (v : Entry) :
    dlookup (dictInsert d k v) k' = if k = k' then some v else dlookup d k' := by
  induction d with
  | nil =>
    by_cases h : k = k' <;> simp [dictInsert, dlookup, h]
  | cons p rest ih =>
    obtain ⟨a, b⟩ := p
    by_cases hak : a = k
    · subst hak
      by_cases h : a = k' <;> simp [dictInsert, dlookup, h]
    · by_cases h : a = k'
      · subst h
        have hka : k ≠ a := fun he => hak he.symm
        simp [dictInsert, dlookup, hak, hka]
      · simp [dictInsert, dlookup, hak, h, ih]

theorem dlookup_mem (d : Dict) (k : String) (e : Entry) :
    dlookup d k = some e → (k, e) ∈ d := by
  induction d with
  | nil => intro h; simp [dlookup] at h
  | cons p rest ih =>
    obtain ⟨a, b⟩ := p
    by_cases h : a = k
    · subst h; simp [dlookup]; intro he; exact Or.inl he.symm
    · simp [dlookup, h]; intro he; exact Or.inr (ih he)

theorem mem_dictInsert (d : Dict) (k : String) (v : Entry) (p : String × Entry) :
    p ∈ dictInsert d k v → p = (k, v) ∨ p ∈ d := by
  induction d with
  | nil => intro h; simp [dictInsert] at h; exact Or.inl h
  | cons q rest ih =>
    obtain ⟨a, b⟩ := q
    by_cases hak : a = k
    · subst hak
      simp [dictInsert]
      rintro (h | h)
      · exact Or.inl h
      · exact Or.inr (Or.inr h)
    · simp [dictInsert, hak]
      rintro (h | h)
      · exact Or.inr (Or.inl h)
      · rcases ih h with h' | h'
        · exact Or.inl h'
        · exact Or.inr (Or.inr h')

theorem scanCol_nonPrivate (d : Dict) (c : String × String)
    (hd : ∀ p ∈ d, entryNonPrivate p.2) :
    ∀ p ∈ scanCol d c, entryNonPrivate p.2 := by
  intro p hp
  have key : ∀ (k : String) (m : ColumnMeta), m.private_id = none →
      p ∈ dictInsert d k (Entry.col m) → entryNonPrivate p.2 := by
    intro k m hm hmem
    rcases mem_dictInsert d k (Entry.col m) p hmem with h | h
    · subst h; exact hm
    · exact hd p h
  unfold scanCol at hp
  split at hp
  · exact key _ _ rfl hp
  · split at hp
    · exact key _ _ rfl hp
    · split at hp
      · exact key _ _ rfl hp
      · exact key _ _ rfl hp

theorem foldl_scanCol_nonPrivate (cols : List (String × String)) (d : Dict)
    (hd : ∀ p ∈ d, entryNonPrivate p.2) :
    ∀ p ∈ cols.foldl scanCol d, entryNonPrivate p.2 := by
  induction cols generalizing d with
  | nil => simpa using hd
  | cons c rest ih =>
    simp only [List.foldl_cons]
    exact ih (scanCol d c) (scanCol_nonPrivate d c hd)

theorem statUpdate_nonPrivate (stats : String → ColStats) (p : String × Entry)
    (h : entryNonPrivate p.2) : entryNonPrivate (statUpdate stats p).2 := by
  obtain ⟨a, b⟩ := p
  cases b <;> simpa [statUpdate, entryNonPrivate] using h

/-- C7: for every profiled table, `generate_transformation_metadata` marks
exactly one column — the designated identifier `recid` — as the private
identifier, with canonical type `int`, whatever the generic scan produced for
it: the `recid` entry is the overriding dictionary
`{"type": "int", "private_id": True}` and no other key of the produced
metadata maps to a column entry carrying `private_id = True`. -/
theorem recid_unique_private_identifier (cols : List (String × String))
    (stats : String → ColStats) (d : Dict)
    (h : generate_transformation_metadata cols stats = some d) :
    dlookup d "recid" = some (Entry.col ⟨"int", none, none, none, some true⟩) ∧
    ∀ k m, dlookup d k = some (Entry.col m) → m.private_id = some true → k = "recid" := by
  simp only [generate_transformation_metadata] at h
  cases hl : (cols.foldl scanCol []).getLast? with
  | none => rw [hl] at h; simp at h
  | some last =>
    rw [hl] at h
    simp only [Option.some.injEq] at h
    subst h
    constructor
    · rw [dlookup_dictInsert, if_neg (by decide), dlookup_dictInsert, if_neg (by decide),
        dlookup_dictInsert, if_pos rfl]
    · intro k m hk hpriv
      rw [dlookup_dictInsert] at hk
      by_cases hk1 : "rows" = k
      · rw [if_pos hk1] at hk; exact absurd hk (by simp)
      · rw [if_neg hk1, dlookup_dictInsert] at hk
        by_cases hk2 : "censor_dims" = k
        · rw [if_pos hk2] at hk; exact absurd hk (by simp)
        · rw [if_neg hk2, dlookup_dictInsert] at hk
          by_cases hk3 : "recid" = k
          · exact hk3.symm
          · rw [if_neg hk3] at hk
            have hmem := dlookup_mem _ _ _ hk
            rcases List.mem_map.mp hmem with ⟨q, hq, hqe⟩
            have h1 := statUpdate_nonPrivate stats q
              (foldl_scanCol_nonPrivate cols [] (by simp) q hq)
            rw [hqe] at h1
            simp only [entryNonPrivate] at h1
            rw [h1] at hpriv
            exact absurd hpriv (by simp)

/-- Witness for `recid_unique_private_identifier` at a concrete one-column
table. -/
theorem recid_unique_private_identifier_witness :
    dlookup [("a", Entry.col ⟨"int", some 0, some 9, some 5, none⟩),
             ("recid", Entry.col ⟨"int", none, none, none, some true⟩),
             ("censor_dims", Entry.flag false),
             ("rows", Entry.num 10)] "recid" =
      some (Entry.col ⟨"int", none, none, none, some true⟩) :=
  (recid_unique_private_identifier [("a", "integer")] (fun _ => ⟨some 0, some 9, 5, 10⟩)
    [("a", Entry.col ⟨"int", some 0, some 9, some 5, none⟩),
     ("recid", Entry.col ⟨"int", none, none, none, some true⟩),
     ("censor_dims", Entry.flag false),
     ("rows", Entry.num 10)] (by decide)).1

theorem scanCol_of_recognized (d : Dict) (k t : String) (h : recognizedType t) :
    scanCol d (k, t) = dictInsert d k (Entry.col { typ := canonType t }) := by
  rcases h with h|h|h|h|h|h|h|h <;> subst h <;> rfl

theorem dlookup_scanCol_other (d : Dict) (c : String × String) (k : String)
    (hk : k ≠ "string") (hc : c.1 ≠ k) :
    dlookup (scanCol d c) k = dlookup d k := by
  unfold scanCol
  split
  · rw [dlookup_dictInsert, if_neg hc]
  · split
    · rw [dlookup_dictInsert, if_neg hc]
    · split
      · rw [dlookup_dictInsert, if_neg hc]
      · rw [dlookup_dictInsert, if_neg (fun he => hk he.symm)]

theorem dlookup_foldl_other (cols : List (String × String)) (d : Dict) (k : String)
    (hk : k ≠ "string") (h : ∀ c ∈ cols, c.1 ≠ k) :
    dlookup (cols.foldl scanCol d) k = dlookup d k := by
  induction cols generalizing d with
  | nil => rfl
  | cons c rest ih =>
    simp only [List.foldl_cons]
    rw [ih (scanCol d c) (fun c' hc' => h c' (List.mem_cons_of_mem _ hc')),
      dlookup_scanCol_other d c k hk (h c (List.mem_cons_self _ _))]

theorem dlookup_foldl_once (cols : List (String × String)) (d : Dict) (k t : String)
    (hmem : (k, t) ∈ cols) (hrec : recognizedType t) (hk : k ≠ "string")
    (hcount : (cols.map Prod.fst).count k = 1) :
    dlookup (cols.foldl scanCol d) k = some (Entry.col { typ := canonType t }) := by
  induction cols generalizing d with
  | nil => cases hmem
  | cons c rest ih =>
    simp only [List.map_cons, List.count_cons, beq_iff_eq] at hcount
    rcases List.mem_cons.mp hmem with hc | hrest
    · have hck : c.1 = k := by rw [← hc]
      rw [if_pos hck] at hcount
      have hrest0 : ∀ c' ∈ rest, c'.1 ≠ k := by
        intro c' hc' hne
        have h1 : 1 ≤ (rest.map Prod.fst).count k :=
          List.count_pos_iff.mpr (List.mem_map.mpr ⟨c', hc', hne⟩)
        omega
      simp only [List.foldl_cons]
      rw [dlookup_foldl_other rest _ k hk hrest0, ← hc,
        scanCol_of_recognized d k t hrec, dlookup_dictInsert, if_pos rfl]
    · have hc1 : c.1 ≠ k := by
        intro he
        have h1 : 1 ≤ (rest.map Prod.fst).count k :=
          List.count_pos_iff.mpr (List.mem_map.mpr ⟨(k, t), hrest, rfl⟩)
        rw [if_pos he] at hcount
        omega
      rw [if_neg hc1] at hcount
      simp only [List.foldl_cons]
      exact ih (scanCol d c) hrest (by omega)

theorem dlookup_map_statUpdate (stats : String → ColStats) (d : Dict) (k : String) :
    dlookup (d.map (statUpdate stats)) k =
      (dlookup d k).map (fun e => (statUpdate stats (k, e)).2) := by
  induction d with
  | nil => rfl
  | cons p rest ih =>
    obtain ⟨a, b⟩ := p
    by_cases h : a = k
    · subst h
      cases b <;> simp [dlookup, statUpdate]
    · cases b <;> simp [dlookup, statUpdate, h, ih]

/-- C8 (amended): for every profiled column whose native type the scan
recognizes (so its name is preserved), whose name does not collide with the
special keys `recid`, `censor_dims`, `rows`, `string` the function writes
afterwards, and which appears exactly once in the scan, the produced metadata
entry carries a `cardinality` field if and only if the column's distinct-value
count is strictly below the cutoff of 100, and then it equals that count. -/
theorem cardinality_iff_low_distinct_count (cols : List (String × String))
    (stats : String → ColStats) (d : Dict) (k t : String)
    (hgen : generate_transformation_metadata cols stats = some d)
    (hmem : (k, t) ∈ cols) (hrec : recognizedType t)
    (hk1 : k ≠ "recid") (hk2 : k ≠ "censor_dims") (hk3 : k ≠ "rows")
    (hk4 : k ≠ "string")
    (hcount : (cols.map Prod.fst).count k = 1) :
    dlookup d k = some (Entry.col
      { typ := canonType t
        lower := (stats k).smin
        upper := (stats k).smax
        cardinality := if (stats k).nunique < 100 then some (stats k).nunique else none
        private_id := none }) ∧
    ∀ m, dlookup d k = some (Entry.col m) →
      (m.cardinality.isSome ↔ (stats k).nunique < 100) := by
  simp only [generate_transformation_metadata] at hgen
  cases hl : (cols.foldl scanCol []).getLast? with
  | none => rw [hl] at hgen; simp at hgen
  | some last =>
    rw [hl] at hgen
    simp only [Option.some.injEq] at hgen
    subst hgen
    have hbase : dlookup ((cols.foldl scanCol []).map (statUpdate stats)) k =
        some (Entry.col
          { typ := canonType t
            lower := (stats k).smin
            upper := (stats k).smax
            cardinality := if (stats k).nunique < 100 then some (stats k).nunique else none
            private_id := none }) := by
      rw [dlookup_map_statUpdate, dlookup_foldl_once cols [] k t hmem hrec hk4 hcount]
      rfl
    have hfull : dlookup (dictInsert (dictInsert (dictInsert
        ((cols.foldl scanCol []).map (statUpdate stats))
        "recid" (Entry.col { typ := "int", private_id := some true }))
        "censor_dims" (Entry.flag false)) "rows" (Entry.num (stats last.1).count)) k =
        some (Entry.col
          { typ := canonType t
            lower := (stats k).smin
            upper := (stats k).smax
            cardinality := if (stats k).nunique < 100 then some (stats k).nunique else none
            private_id := none }) := by
      rw [dlookup_dictInsert, if_neg (fun he => hk3 he.symm),
        dlookup_dictInsert, if_neg (fun he => hk2 he.symm),
        dlookup_dictInsert, if_neg (fun he => hk1 he.symm), hbase]
    refine ⟨hfull, ?_⟩
    intro m hm
    rw [hfull] at hm
    simp only [Option.some.injEq, Entry.col.injEq] at hm
    subst hm
    by_cases hq : (stats k).nunique < 100 <;> simp [hq]

/-- Counterexample to C8 as stated: on a five-row table the designated
identifier `recid` is a profiled column with distinct-value count 5 < 100,
yet its entry in the produced metadata is the override
`{"type": "int", "private_id": True}`, which carries no `cardinality`
field. -/
theorem recid_cardinality_dropped :
    generate_transformation_metadata c8cols c8stats = some c8dict ∧
    ("recid", "integer") ∈ c8cols ∧
    (c8stats "recid").nunique < 100 ∧
    dlookup c8dict "recid" = some (Entry.col ⟨"int", none, none, none, some true⟩) ∧
    (∀ m, dlookup c8dict "recid" = some (Entry.col m) → m.cardinality = none) := by
  refine ⟨by decide, by decide, by decide, by decide, ?_⟩
  intro m hm
  simp only [show dlookup c8dict "recid" =
      some (Entry.col ⟨"int", none, none, none, some true⟩) from by decide,
    Option.some.injEq, Entry.col.injEq] at hm
  rw [← hm]

/-- Witness for `cardinality_iff_low_distinct_count` at the ordinary column
`age` of the same concrete table. -/
theorem cardinality_iff_low_distinct_count_witness :
    dlookup c8dict "age" = some (Entry.col ⟨"int", some 1, some 5, some 5, none⟩) :=
  (cardinality_iff_low_distinct_count c8cols c8stats c8dict "age" "integer"
    (by decide) (by decide) (by decide) (by decide) (by decide) (by decide)
    (by decide) (by decide)).1

/-- C9: evaluation of the profiler at the failing input — a single column
`notes` of unrecognized native type `text`.  The scan's fallback branch
(index.py line 205) reassigns the dictionary key to the literal `"string"`
while leaving `key_type` untouched, so the produced metadata has no entry for
`notes` (its identity is lost) and the `"string"` entry's `type` field is the
native name `"text"` — it is not coerced to the canonical type `"string"` as
the claim and the data model's four-type enum require. -/
theorem unrecognized_type_keeps_native_type :
    generate_transformation_metadata c9cols c9stats = some c9dict ∧
    dlookup c9dict "notes" = none ∧
    dlookup c9dict "string" = some (Entry.col ⟨"text", some 0, some 1, some 3, none⟩) ∧
    (∀ m, dlookup c9dict "string" = some (Entry.col m) → m.typ ≠ "string") := by
  refine ⟨by decide, by decide, by decide, ?_⟩
  intro m hm
  simp only [show dlookup c9dict "string" =
      some (Entry.col ⟨"text", some 0, some 1, some 3, none⟩) from by decide,
    Option.some.injEq, Entry.col.injEq] at hm
  rw [← hm]
  decide

/-- Counterexample to C1 as stated: with a probe reporting M = 1 column
access and total epsilon E = 0 ≤ 0, `get_epsilon_per_column` does not fail —
it returns the value 0/1 = 0.  The source performs no check on the sign of
epsilon. -/
theorem epsilon_nonpositive_returns_value :
    (0 : ℚ) ≤ 0 ∧
    get_epsilon_per_column (fun _ => 1) "SELECT age FROM puf.puf_demo" 0 =
      Except.ok 0 := by
  constructor
  · exact le_refl 0
  · simp [get_epsilon_per_column]

/-- C1 (amended): `get_epsilon_per_column` fails — with Python's division by
zero, the concrete form of the spec's `BudgetAllocationError` — exactly when
the probe reports zero column accesses; when the probe reports at least one
access it returns `E / M` even for `E ≤ 0`, with no error. -/
theorem epsilon_per_column_division_behavior (costLen : String → Nat)
    (query : String) (epsilon : ℚ) :
    (costLen query = 0 →
      get_epsilon_per_column costLen query epsilon = Except.error "division by zero") ∧
    (costLen query ≠ 0 →
      get_epsilon_per_column costLen query epsilon =
        Except.ok (epsilon / (costLen query : ℚ))) := by
  constructor <;> intro h <;> simp [get_epsilon_per_column, h]

/-- Witness for `epsilon_per_column_division_behavior`: the zero-access case
fails, and a negative budget with two accesses is still split and
returned. -/
theorem epsilon_per_column_division_behavior_witness :
    get_epsilon_per_column (fun _ => 0) "SELECT 1" 1 =
      Except.error "division by zero" ∧
    get_epsilon_per_column (fun _ => 2) "SELECT 1" (-3) =
      Except.ok ((-3) / ((2 : ℕ) : ℚ)) :=
  ⟨(epsilon_per_column_division_behavior (fun _ => 0) "SELECT 1" 1).1 rfl,
   (epsilon_per_column_division_behavior (fun _ => 2) "SELECT 1" (-3)).2 (by decide)⟩

/-- C2: for every positive total epsilon E and every query whose probe
reports M ≥ 1 column-level costs, `get_epsilon_per_column` returns exactly
E / M, and M * (E / M) = E — exact over the rational embedding of the
floating-point arithmetic. -/
theorem epsilon_per_column_even_split (costLen : String → Nat) (query : String)
    (E : ℚ) (hE : 0 < E) (hM : 1 ≤ costLen query) :
    get_epsilon_per_column costLen query E = Except.ok (E / (costLen query : ℚ)) ∧
    (costLen query : ℚ) * (E / (costLen query : ℚ)) = E := by
  have h0 : costLen query ≠ 0 := by omega
  have h0q : (costLen query : ℚ) ≠ 0 := by exact_mod_cast h0
  constructor
  · simp [get_epsilon_per_column, h0]
  · field_simp

/-- Witness for `epsilon_per_column_even_split` with E = 1 and M = 4. -/
theorem epsilon_per_column_even_split_witness :
    get_epsilon_per_column (fun _ => 4) "SELECT 1" 1 =
      Except.ok (1 / ((4 : ℕ) : ℚ)) ∧
    ((4 : ℕ) : ℚ) * (1 / ((4 : ℕ) : ℚ)) = 1 :=
  epsilon_per_column_even_split (fun _ => 4) "SELECT 1" 1 (by norm_num) (by decide)

theorem run_analysis_ok_researcher (caps : Caps) (m : Meta) (event : Event)
    (p : Payload) (h : run_analysis_query caps m event = Except.ok p) :
    event.researcher_id.isSome := by
  unfold run_analysis_query at h
  cases hr : event.researcher_id with
  | none => rw [hr] at h; exact absurd h (by simp)
  | some r => simp [hr]

theorem tryBlock_ok_researcher (caps : Caps) (m0 : Meta) (event : Event) (p : Payload)
    (h : (tryBlock caps m0 event).1 = Except.ok p) : event.researcher_id.isSome := by
  unfold tryBlock at h
  cases hq : event.transformation_query with
  | none =>
    rw [hq] at h
    exact run_analysis_ok_researcher caps m0 event p h
  | some q =>
    rw [hq] at h
    cases hc : event.confidential_query with
    | true =>
      rw [hc] at h; simp only [if_true] at h
      cases hm : refresh_metadata caps q with
      | error e => rw [hm] at h; exact absurd h (by simp)
      | ok m =>
        rw [hm] at h
        exact run_analysis_ok_researcher caps m event p h
    | false =>
      rw [hc] at h; simp only [if_false] at h
      cases ht : caps.runTransformation q with
      | error e => rw [ht] at h; exact absurd h (by simp)
      | ok u =>
        rw [ht] at h
        cases hm : refresh_metadata caps q with
        | error e => rw [hm] at h; exact absurd h (by simp)
        | ok m =>
          rw [hm] at h
          exact run_analysis_ok_researcher caps m event p h

theorem tryBlock_trace_cases (caps : Caps) (m0 : Meta) (event : Event) :
    (tryBlock caps m0 event).2 = [Step.execution] ∨
    (tryBlock caps m0 event).2 = [Step.metadataRefresh] ∨
    (tryBlock caps m0 event).2 = [Step.metadataRefresh, Step.execution] ∨
    (tryBlock caps m0 event).2 = [Step.transformation] ∨
    (tryBlock caps m0 event).2 = [Step.transformation, Step.metadataRefresh] ∨
    (tryBlock caps m0 event).2 =
      [Step.transformation, Step.metadataRefresh, Step.execution] := by
  unfold tryBlock
  cases hq : event.transformation_query with
  | none => simp
  | some q =>
    cases hc : event.confidential_query with
    | true =>
      simp only [if_true]
      cases hm : refresh_metadata caps q <;> simp
    | false =>
      simp only [if_false]
      cases ht : caps.runTransformation q with
      | error e => simp
      | ok u => cases hm : refresh_metadata caps q <;> simp

theorem tryBlock_trace_no_delivery (caps : Caps) (m0 : Meta) (event : Event) :
    Step.delivery ∉ (tryBlock caps m0 event).2 := by
  rcases tryBlock_trace_cases caps m0 event with h|h|h|h|h|h <;> rw [h] <;> decide

theorem handlerRest_trace_eq (caps : Caps) (creds : Credentials) (event : Event)
    (tryRes : Except String Payload) (tr : List Step) :
    (handlerRest caps creds event tryRes tr).trace = tr ∨
    (handlerRest caps creds event tryRes tr).trace = tr ++ [Step.delivery] := by
  unfold handlerRest
  cases hres : (match tryRes with
      | Except.ok p => Except.ok p
      | Except.error e => parse_error event e) with
  | ok p =>
    cases hd : event.debug with
    | true => simp [hd]
    | false =>
      cases hp : post_payload caps.http event p creds
          event.confidential_query <;> simp [hd, hp]
  | error e =>
    cases hd : event.debug <;> simp [hd]

theorem handler_eq_of_setup_ok (caps : Caps) (event : Event) (m0 : Meta)
    (creds : Credentials) (hs : setup caps = Except.ok (m0, creds)) :
    handler caps event =
      handlerRest caps creds event (tryBlock caps m0 event).1
        (tryBlock caps m0 event).2 := by
  unfold handler
  rw [hs]

theorem handler_of_setup_error (caps : Caps) (event : Event) (e : String)
    (hs : setup caps = Except.error e) :
    handler caps event =
      { outcome := Outcome.exn "local variable debug referenced before assignment"
        payload := match parse_error event e with
                   | Except.ok p => some p
                   | Except.error _ => none
        trace := [] } := by
  unfold handler
  rw [hs]

/-- Evaluation of the setup-failure path at a concrete input: when
`get_secret` raises, the exception arrives before `debug` is bound, so on a
well-formed non-debug request no pipeline step and no delivery is attempted
and the handler ends with `UnboundLocalError` on `debug` — even though the
error payload was formed in the `except` clause. -/
theorem setup_failure_no_delivery :
    (handler failSecretCaps baseEvent).trace = [] ∧
    Step.delivery ∉ (handler failSecretCaps baseEvent).trace ∧
    (handler failSecretCaps baseEvent).outcome =
      Outcome.exn "local variable debug referenced before assignment" := by decide

theorem handler_trace_ordered (caps : Caps) (event : Event) :
    ((handler caps event).trace).Pairwise (fun a b => stepRank a < stepRank b) := by
  cases hs : setup caps with
  | error e =>
    rw [handler_of_setup_error caps event e hs]
    exact List.Pairwise.nil
  | ok mc =>
    obtain ⟨m0, creds⟩ := mc
    rw [handler_eq_of_setup_ok caps event m0 creds hs]
    rcases handlerRest_trace_eq caps creds event (tryBlock caps m0 event).1
        (tryBlock caps m0 event).2 with h | h <;>
      rcases tryBlock_trace_cases caps m0 event with h2|h2|h2|h2|h2|h2 <;>
      rw [h, h2] <;> decide

theorem mem_handler_trace_iff (caps : Caps) (event : Event) (m0 : Meta)
    (creds : Credentials) (hs : setup caps = Except.ok (m0, creds)) (s : Step)
    (hsd : s ≠ Step.delivery) :
    s ∈ (handler caps event).trace ↔ s ∈ (tryBlock caps m0 event).2 := by
  rw [handler_eq_of_setup_ok caps event m0 creds hs]
  rcases handlerRest_trace_eq caps creds event (tryBlock caps m0 event).1
      (tryBlock caps m0 event).2 with h | h <;> rw [h] <;> simp [hsd]

theorem tryBlock_transformation_mem (caps : Caps) (m0 : Meta) (event : Event) :
    Step.transformation ∈ (tryBlock caps m0 event).2 ↔
      (event.transformation_query.isSome ∧ event.confidential_query = false) := by
  unfold tryBlock
  cases hq : event.transformation_query with
  | none => simp
  | some q =>
    cases hc : event.confidential_query with
    | true => cases hm : refresh_metadata caps q <;> simp [hm]
    | false =>
      cases ht : caps.runTransformation q with
      | error e => simp [ht]
      | ok u => cases hm : refresh_metadata caps q <;> simp [ht, hm]

theorem tryBlock_refresh_mem (caps : Caps) (m0 : Meta) (event : Event) (q : String)
    (hq : event.transformation_query = some q) :
    Step.metadataRefresh ∈ (tryBlock caps m0 event).2 ↔
      (event.confidential_query = true ∨ caps.runTransformation q = Except.ok ()) := by
  unfold tryBlock
  rw [hq]
  cases hc : event.confidential_query with
  | true => cases hm : refresh_metadata caps q <;> simp [hm]
  | false =>
    cases ht : caps.runTransformation q with
    | error e => simp [ht]
    | ok u =>
      cases u
      cases hm : refresh_metadata caps q <;> simp [ht, hm]

/-- Counterexample to C5 as stated: a non-confidential request carrying a
transformation query whose transformation statement fails on the database.
The handler attempts only the transformation step — the metadata-refresh step
does not run although a transformation query is present. -/
theorem metadata_refresh_skipped_on_transformation_failure :
    c5event.transformation_query.isSome ∧
    (handler c5caps c5event).trace = [Step.transformation] ∧
    Step.metadataRefresh ∉ (handler c5caps c5event).trace := by decide

/-- C5 (amended): provided the setup calls (`load_metadata`, `get_secret`,
`get_reader`) succeeded — a failure there raises before any pipeline step, so
none runs — the transformation step is attempted iff a transformation query
is present on a non-confidential request; with no transformation query
neither the transformation nor the metadata-refresh step ever runs; the
metadata-refresh step is attempted iff a transformation query is present and
either the request is confidential (transformation skipped) or the
transformation statement succeeded; and the attempted steps always occur in
the pipeline order transformation < metadata refresh < execution <
delivery. -/
theorem pipeline_step_conditions_and_order (caps : Caps) (event : Event) :
    (Step.transformation ∈ (handler caps event).trace ↔
      ((∃ m0 creds, setup caps = Except.ok (m0, creds)) ∧
        event.transformation_query.isSome ∧ event.confidential_query = false)) ∧
    (event.transformation_query = none →
      Step.transformation ∉ (handler caps event).trace ∧
      Step.metadataRefresh ∉ (handler caps event).trace) ∧
    (∀ q, event.transformation_query = some q →
      (Step.metadataRefresh ∈ (handler caps event).trace ↔
        ((∃ m0 creds, setup caps = Except.ok (m0, creds)) ∧
          (event.confidential_query = true ∨
            caps.runTransformation q = Except.ok ())))) ∧
    ((handler caps event).trace).Pairwise (fun a b => stepRank a < stepRank b) := by
  cases hs : setup caps with
  | error e =>
    have htr : (handler caps event).trace = [] := by
      rw [handler_of_setup_error caps event e hs]
    refine ⟨?_, ?_, ?_, ?_⟩
    · rw [htr]; simp
    · intro hq; rw [htr]; simp
    · intro q hq; rw [htr]; simp
    · rw [htr]; decide
  | ok mc =>
    obtain ⟨m0, creds⟩ := mc
    have hex : ∃ a b,
        (Except.ok (m0, creds) : Except String (Meta × Credentials)) =
          Except.ok (a, b) := ⟨m0, creds, rfl⟩
    refine ⟨?_, ?_, ?_, handler_trace_ordered caps event⟩
    · rw [mem_handler_trace_iff caps event m0 creds hs Step.transformation (by decide),
        tryBlock_transformation_mem caps m0 event]
      simp [hex]
    · intro hq
      constructor
      · rw [mem_handler_trace_iff caps event m0 creds hs Step.transformation (by decide),
          tryBlock_transformation_mem caps m0 event]
        simp [hq]
      · rw [mem_handler_trace_iff caps event m0 creds hs Step.metadataRefresh (by decide)]
        unfold tryBlock
        rw [hq]
        simp
    · intro q hq
      rw [mem_handler_trace_iff caps event m0 creds hs Step.metadataRefresh (by decide),
        tryBlock_refresh_mem caps m0 event q hq]
      simp [hex]

/-- Witness for `pipeline_step_conditions_and_order`: a request without a
transformation query triggers neither the transformation nor the
metadata-refresh step. -/
theorem pipeline_step_conditions_and_order_witness :
    Step.transformation ∉ (handler okCaps baseEvent).trace ∧
    Step.metadataRefresh ∉ (handler okCaps baseEvent).trace :=
  (pipeline_step_conditions_and_order okCaps baseEvent).2.1 rfl

/-- Counterexample to C3 as stated: a non-debug request whose
`researcher_id` key is absent.  Every capability succeeds, yet no delivery is
attempted — the error formatter itself raises before `payload` is ever bound,
so the `finally` block's delivery call raises `UnboundLocalError` instead of
posting. -/
theorem delivery_skipped_without_researcher :
    c3event.debug = false ∧
    Step.delivery ∉ (handler okCaps c3event).trace := by decide

/-- C3 (amended): the handler attempts payload delivery iff `debug` is false,
the request carries a `researcher_id`, and the setup calls succeeded.  In
particular debug requests never invoke the delivery capability under either
outcome; non-debug requests carrying `researcher_id` whose setup succeeded
always get a delivery attempt whether the compute path succeeded or failed;
and a setup failure (raising before `debug` is bound, hence
`UnboundLocalError` in the `finally` clause), like a missing `researcher_id`,
yields no delivery at all. -/
theorem delivery_iff_not_debug_and_researcher (caps : Caps) (event : Event) :
    Step.delivery ∈ (handler caps event).trace ↔
      (event.debug = false ∧ event.researcher_id.isSome ∧
        ∃ m0 creds, setup caps = Except.ok (m0, creds)) := by
  cases hs : setup caps with
  | error e =>
    rw [handler_of_setup_error caps event e hs]
    simp
  | ok mc =>
    obtain ⟨m0, creds⟩ := mc
    have hex : ∃ a b,
        (Except.ok (m0, creds) : Except String (Meta × Credentials)) =
          Except.ok (a, b) := ⟨m0, creds, rfl⟩
    rw [handler_eq_of_setup_ok caps event m0 creds hs]
    rcases htb : tryBlock caps m0 event with ⟨tryRes, tr⟩
    have hnd : Step.delivery ∉ tr := by
      have h := tryBlock_trace_no_delivery caps m0 event
      rw [htb] at h
      exact h
    simp only
    unfold handlerRest
    cases tryRes with
    | ok p =>
      have hsome : event.researcher_id.isSome :=
        tryBlock_ok_researcher caps m0 event p (by rw [htb])
      cases hd : event.debug with
      | true => simp [hd, hnd]
      | false =>
        cases hp : post_payload caps.http event p creds
            event.confidential_query <;> simp [hd, hp, hnd, hsome, hex]
    | error e2 =>
      cases hres : event.researcher_id with
      | none =>
        cases hd : event.debug <;> simp [parse_error, hres, hd, hnd]
      | some r =>
        cases hd : event.debug with
        | true => simp [parse_error, hres, hd, hnd]
        | false =>
          simp only [parse_error, hres]
          rw [if_neg (by simp [hd])]
          split <;> simp [hd, hres, hex]

/-- C4: whenever setup succeeded and the try block raises out of the
private-execution step (`run_analysis_query`) with a stringified exception
`err`, and the request carries a `researcher_id` so the error formatter can
run, the handler binds a failure ResultPayload whose result is
`{"ok": False, "error": err}` — non-empty since the exception's rendering
is — whose accuracy is the empty structure, and whose `command_id`, `run_id`,
`researcher_id` and `privacy_budget_used` equal those of the original
request. -/
theorem executor_failure_error_payload (caps : Caps) (event : Event)
    (m0 : Meta) (creds : Credentials) (err : String) (tr : List Step) (r : String)
    (hsetup : setup caps = Except.ok (m0, creds))
    (hres : event.researcher_id = some r)
    (htry : tryBlock caps m0 event = (Except.error err, tr))
    (hexec : Step.execution ∈ tr)
    (herr : err ≠ "") :
    (handler caps event).payload = some
      { command_id := event.command_id
        run_id := event.run_id
        researcher_id := r
        privacy_budget_used := event.epsilon
        result := { ok := false, data := none, error := some err }
        accuracy := Accuracy.empty } ∧
    err ≠ "" := by
  refine ⟨?_, herr⟩
  rw [handler_eq_of_setup_ok caps event m0 creds hsetup, htry]
  simp only
  unfold handlerRest
  simp only [parse_error, hres]
  cases hd : event.debug with
  | true => simp [hd]
  | false =>
    rw [if_neg (by simp [hd])]
    split <;> rfl

/-- Witness for `executor_failure_error_payload` with a concretely failing
private executor. -/
theorem executor_failure_error_payload_witness :
    (handler c4caps baseEvent).payload = some
      { command_id := "c-17"
        run_id := "r-42"
        researcher_id := "u-7"
        privacy_budget_used := 1
        result := { ok := false, data := none, error := some "Bad query: column unknown" }
        accuracy := Accuracy.empty } ∧
    "Bad query: column unknown" ≠ "" :=
  executor_failure_error_payload c4caps baseEvent Meta.baseline ⟨"t0"⟩
    "Bad query: column unknown" [Step.execution] "u-7" rfl rfl rfl
    (by decide) (by decide)

/-- Counterexample to C6 as stated: on a well-formed non-debug request whose
delivery call raises a connectivity error, the exception is not caught or
logged by the handler — there is no `except` around the `finally` block's
`post_payload` call, so it propagates past the handler. -/
theorem delivery_failure_propagates :
    baseEvent.debug = false ∧
    (handler c6caps baseEvent).outcome = Outcome.exn "ConnectionError" := by
  exact ⟨rfl, rfl⟩

/-- C6 (amended): when setup succeeded — so the delivery call of the
`finally` clause is reached at all — and the delivery capability raises, the
exception propagates out of the handler (it is not caught, logged, or
converted); still, exactly one delivery attempt is made — the failure is
never retried. -/
theorem delivery_failure_not_retried (caps : Caps) (event : Event)
    (m0 : Meta) (creds : Credentials) (err r : String)
    (hsetup : setup caps = Except.ok (m0, creds))
    (hdebug : event.debug = false)
    (hres : event.researcher_id = some r)
    (hhttp : ∀ u t p, caps.http u t p = Except.error err) :
    (handler caps event).outcome = Outcome.exn err ∧
    (handler caps event).trace.count Step.delivery = 1 := by
  rw [handler_eq_of_setup_ok caps event m0 creds hsetup]
  rcases htb : tryBlock caps m0 event with ⟨tryRes, tr⟩
  have hnd : Step.delivery ∉ tr := by
    have h := tryBlock_trace_no_delivery caps m0 event
    rw [htb] at h
    exact h
  have hcount : (tr ++ [Step.delivery]).count Step.delivery = 1 := by
    rw [List.count_append, List.count_eq_zero.mpr hnd]
    rfl
  simp only
  unfold handlerRest
  cases tryRes with
  | ok p => simp [hdebug, post_payload, hhttp, hcount]
  | error e => simp [parse_error, hres, hdebug, post_payload, hhttp, hcount]

/-- Witness for `delivery_failure_not_retried` at a concrete request and a
failing HTTP capability. -/
theorem delivery_failure_not_retried_witness :
    (handler c6caps baseEvent).outcome = Outcome.exn "ConnectionError" ∧
    (handler c6caps baseEvent).trace.count Step.delivery = 1 :=
  delivery_failure_not_retried c6caps baseEvent Meta.baseline ⟨"t0"⟩
    "ConnectionError" "u-7" rfl rfl rfl (fun _ _ _ => rfl)

/-- C10: on an event lacking the `researcher_id` key, no payload can be
formed: the success path (`run_analysis_query`) and the error path
(`parse_error`) both read `event["researcher_id"]` unconditionally and raise
`KeyError`, so the handler's local `payload` is never bound, the invocation
terminates by exception, and no delivery is attempted — whether the setup
calls succeed or fail. -/
theorem missing_researcher_id_no_payload (caps : Caps) (event : Event)
    (h : event.researcher_id = none) :
    (handler caps event).payload = none ∧
    (∃ e, (handler caps event).outcome = Outcome.exn e) ∧
    Step.delivery ∉ (handler caps event).trace ∧
    (∀ e, parse_error event e = Except.error "researcher_id") ∧
    (∀ m, run_analysis_query caps m event = Except.error "researcher_id") := by
  have hpe : ∀ e, parse_error event e = Except.error "researcher_id" := by
    intro e
    simp [parse_error, h]
  have hra : ∀ m, run_analysis_query caps m event = Except.error "researcher_id" := by
    intro m
    simp [run_analysis_query, h]
  cases hs : setup caps with
  | error e =>
    rw [handler_of_setup_error caps event e hs]
    refine ⟨?_, ⟨"local variable debug referenced before assignment", rfl⟩,
      List.not_mem_nil _, hpe, hra⟩
    simp [hpe]
  | ok mc =>
    obtain ⟨m0, creds⟩ := mc
    rw [handler_eq_of_setup_ok caps event m0 creds hs]
    rcases htb : tryBlock caps m0 event with ⟨tryRes, tr⟩
    have hnd : Step.delivery ∉ tr := by
      have h2 := tryBlock_trace_no_delivery caps m0 event
      rw [htb] at h2
      exact h2
    have herr : ∃ e2, tryRes = Except.error e2 := by
      cases htr2 : tryRes with
      | ok p =>
        have hsx : event.researcher_id.isSome :=
          tryBlock_ok_researcher caps m0 event p (by rw [htb]; exact htr2)
        rw [h] at hsx
        exact absurd hsx (by simp)
      | error e2 => exact ⟨e2, rfl⟩
    rcases herr with ⟨e2, he2⟩
    subst he2
    simp only
    unfold handlerRest
    simp only [hpe]
    cases hd : event.debug with
    | true =>
      rw [if_pos rfl]
      exact ⟨rfl, ⟨"researcher_id", rfl⟩, hnd, fun _ => trivial, hra⟩
    | false =>
      rw [if_neg (by simp)]
      exact ⟨rfl, ⟨"local variable payload referenced before assignment", rfl⟩, hnd,
        fun _ => trivial, hra⟩

/-- Witness for `missing_researcher_id_no_payload` on a concrete debug event
lacking the key. -/
theorem missing_researcher_id_no_payload_witness :
    (handler okCaps c10event).payload = none ∧
    Step.delivery ∉ (handler okCaps c10event).trace :=
  ⟨(missing_researcher_id_no_payload okCaps c10event rfl).1,
   (missing_researcher_id_no_payload okCaps c10event rfl).2.2.1⟩
